import Mathlib

/-!
Shallow embedding of the trustar-python client (src/trustar/TruStar.py and
src/trustar/models/request_quota.py) and proofs about the claims of its
specification.

Python values that flow into JSON payloads are modelled by the inductive
type `PyObj`; Python `None` is `PyObj.none`.  A `datetime` object is
modelled by `PyDatetime`: its wall-clock reading in seconds since the epoch
(a rational, since Python true division can produce fractional seconds) and
its optional fixed UTC offset in seconds (`Option.none` models a naive
datetime).  The local system timezone (`tzlocal.get_localzone()`) is
modelled as a fixed offset `localOff`, and `dateutil.parser.parse` as an
explicit function argument `parse` returning `Option PyDatetime`
(`Option.none` models a raised parse exception).  The ISO-8601 string
produced by `datetime.isoformat()` is modelled by its semantic content,
the final `PyDatetime` itself: an explicit UTC offset in the output string
corresponds to `tz = some 0`.
-/

/-- Model of a decoded Python/JSON value.  `PyObj.none` is Python `None`;
`PyObj.iso d` stands for the ISO-8601 string produced by formatting the
datetime `d`. -/
inductive PyObj where
  | none
  | bool (b : Bool)
  | int (n : Int)
  | str (s : String)
  | iso (wall : ℚ) (tz : Option Int)
  | list (xs : List PyObj)
  | dict (fields : List (String × PyObj))

/-- Python `d.get(k)`: the value stored under `k`, or `None` when the key is
absent. -/
def pyGet (d : List (String × PyObj)) (k : String) : PyObj :=
  match d.find? (fun p => p.1 = k) with
  | some p => p.2
  | Option.none => PyObj.none

/-- Lift an optional string parameter (default `None` in Python) to a
payload value. -/
def pyStrOpt : Option String → PyObj
  | Option.none => PyObj.none
  | some s => PyObj.str s

/-- Lift an optional boolean parameter (default `None` in Python) to a
payload value. -/
def pyBoolOpt : Option Bool → PyObj
  | Option.none => PyObj.none
  | some b => PyObj.bool b

/-- Model of a Python `datetime`: wall-clock seconds since the epoch as read
on its own clock face, and its UTC offset in seconds (`Option.none` for a
timezone-naive value). -/
structure PyDatetime where
  wall : ℚ
  tz : Option Int
  deriving DecidableEq

/-- Smallest epoch value representable by `datetime` (year 1). -/
def minPyEpoch : Int := -62135596800

/-- Largest epoch value representable by `datetime` (year 9999). -/
def maxPyEpoch : Int := 253402300799

/-- `timezone.localize(d)` for the fixed-offset local zone `off`: attaches
the offset, keeping the wall-clock reading (TruStar.py line 91). -/
def localize (off : Int) (d : PyDatetime) : PyDatetime :=
  { wall := d.wall, tz := some off }

/-- `d.astimezone(pytz.utc)` (TruStar.py line 94): converts an aware
datetime to UTC.  In the source it is only applied right after `localize`,
so the naive branch is unreachable there. -/
def astimezone_utc (d : PyDatetime) : PyDatetime :=
  match d.tz with
  | some o => { wall := d.wall - (o : ℚ), tz := some 0 }
  | Option.none => { wall := d.wall, tz := some 0 }

/-- `datetime.fromtimestamp(t)` (TruStar.py line 75): a naive datetime whose
wall clock reads the instant `t` in the local zone `localOff`; raises
(modelled by `Option.none`) when `t` is outside the representable range. -/
def fromtimestamp (localOff : Int) (t : ℚ) : Option PyDatetime :=
  if (minPyEpoch : ℚ) ≤ t ∧ t ≤ (maxPyEpoch : ℚ) then
    some { wall := t + (localOff : ℚ), tz := Option.none }
  else Option.none

/-- The possible runtime types of the `date_time` argument of
`normalize_timestamp`: `int`, `str`, `datetime`, or anything else. -/
inductive PyInput where
  | int (n : Int)
  | str (s : String)
  | dt (d : PyDatetime)
  | other

/-- TruStar.py lines 66-74: seconds/milliseconds disambiguation (integers
above 9999999999 are milliseconds, divided by 1000 by Python true division)
followed by the clamp of forward-dated values to `current_time`. -/
def pyIntSeconds (current_time : Int) (n : Int) : ℚ :=
  let t : ℚ := if 9999999999 < n then (n : ℚ) / 1000 else (n : ℚ)
  if (current_time : ℚ) < t then (current_time : ℚ) else t

/-- `TruStar.normalize_timestamp` (TruStar.py lines 51-97).  `parse` models
`dateutil.parser.parse`, `localOff` the local zone, `nowWall` the wall
reading of `datetime.now()`, and `current_time` `int(time.time())`.  The
`try` block is modelled by an `Option`: `Option.none` is a raised
exception, answered by the fallback `datetime.now()` of line 84; an input
of unrecognized type keeps the `datetime.now()` default of line 59.  Lines
87-94 localize and convert to UTC only a timezone-naive result; line 97
returns the formatted value. -/
def normalize_timestamp (parse : String → Option PyDatetime) (localOff : Int)
    (nowWall : ℚ) (current_time : Int) (date_time : PyInput) : PyDatetime :=
  let attempt : Option PyDatetime :=
    match date_time with
    | PyInput.int n => fromtimestamp localOff (pyIntSeconds current_time n)
    | PyInput.str s => parse s
    | PyInput.dt d => some d
    | PyInput.other => some { wall := nowWall, tz := Option.none }
  let datetime_dt : PyDatetime := attempt.getD { wall := nowWall, tz := Option.none }
  match datetime_dt.tz with
  | Option.none => astimezone_utc (localize localOff datetime_dt)
  | some _ => datetime_dt

/-- `RequestQuota` (models/request_quota.py lines 10-29): a plain record of
six fields.  Field values are arbitrary decoded JSON values, `PyObj.none`
standing for an unset (`None`) field. -/
structure RequestQuota where
  guid : PyObj
  max_requests : PyObj
  used_requests : PyObj
  time_window : PyObj
  last_reset_time : PyObj
  next_reset_time : PyObj

/-- `RequestQuota.to_dict` (request_quota.py lines 31-44) with the default
`remove_nones=False`; the `remove_nones=True` branch delegates to
`ModelBase.to_dict`, which is outside src/ and is not exercised here. -/
def RequestQuota.to_dict (q : RequestQuota) : List (String × PyObj) :=
  [("guid", q.guid),
   ("maxRequests", q.max_requests),
   ("usedRequests", q.used_requests),
   ("timeWindow", q.time_window),
   ("lastResetTime", q.last_reset_time),
   ("nextResetTime", q.next_reset_time)]

/-- `RequestQuota.from_dict` (request_quota.py lines 46-57): `None` maps to
`None`, otherwise each field is read with `d.get`. -/
def RequestQuota.from_dict (d : Option (List (String × PyObj))) : Option RequestQuota :=
  match d with
  | Option.none => Option.none
  | some d =>
      some { guid := pyGet d "guid",
             max_requests := pyGet d "maxRequests",
             used_requests := pyGet d "usedRequests",
             time_window := pyGet d "timeWindow",
             last_reset_time := pyGet d "lastResetTime",
             next_reset_time := pyGet d "nextResetTime" }

/-- An HTTP request as handed to the `requests` library: method, url,
query parameters, headers, serialized body, the optional `timeout=` keyword
argument, and the `verify=` flag. -/
structure HttpRequest where
  method : String
  url : String
  params : List (String × Option String)
  headers : List (String × String)
  body : Option PyObj
  timeout : Option Nat
  verify : Bool

/-- An HTTP response from the transport: status code and decoded JSON body
(`json.loads(resp.content)` and `resp.json()` are modelled as access to the
already-decoded body). -/
structure HttpResponse where
  status_code : Nat
  content : PyObj

/-- A typed API error carrying the HTTP status and the server message, as
the specification describes client operations raising. -/
structure ApiError where
  status : Nat
  message : String

/-- Response handling of `get_report_details` (TruStar.py line 131): the
decoded body is returned unconditionally; the status code is never
inspected. -/
def get_report_details_handle (resp : HttpResponse) : Except ApiError PyObj :=
  Except.ok resp.content

/-- Response handling of `submit_report` (TruStar.py line 270,
`resp.json()`): the decoded body is returned unconditionally; the status
code is never inspected. -/
def submit_report_handle (resp : HttpResponse) : Except ApiError PyObj :=
  Except.ok resp.content

/-- The client configuration state set up by `TruStar.__init__`
(TruStar.py lines 26-49). -/
structure TruStar where
  auth : String
  base : String
  apikey : String
  apisecret : String
  enclaveIds : List String
  attributedToMe : Bool

/-- `TruStar.submit_report` (TruStar.py lines 238-270), up to the point the
transport is invoked: either the guard of lines 254-255 raises
(`Except.error`), or the request of lines 267-268 is issued
(`Except.ok`).  `parse`, `localOff`, `nowWall` and `current_time` are the
environment of `normalize_timestamp` (line 261). -/
def TruStar.submit_report (self : TruStar) (parse : String → Option PyDatetime)
    (localOff : Int) (nowWall : ℚ) (current_time : Int)
    (access_token report_body_txt report_name : String) (began_time : PyInput)
    (enclave : Bool) (verify : Bool) : Except String HttpRequest :=
  let distribution_type := if enclave then "ENCLAVE" else "COMMUNITY"
  if distribution_type = "ENCLAVE" ∧ self.enclaveIds.length < 1 then
    Except.error "Must specify one or more enclave IDs to submit enclave reports into"
  else
    let tb := normalize_timestamp parse localOff nowWall current_time began_time
    Except.ok
      { method := "POST",
        url := self.base ++ "/reports/submit",
        params := [],
        headers := [("Authorization", "Bearer " ++ access_token),
                    ("content-Type", "application/json")],
        body := some (PyObj.dict
          [("incidentReport", PyObj.dict
             [("title", PyObj.str report_name),
              ("timeBegan", PyObj.iso tb.wall tb.tz),
              ("reportBody", PyObj.str report_body_txt),
              ("distributionType", PyObj.str distribution_type)]),
           ("enclaveIds", PyObj.list (self.enclaveIds.map PyObj.str)),
           ("attributedToMe", PyObj.bool self.attributedToMe)]),
        timeout := some 60,
        verify := verify }

/-- `TruStar.submit_report_v12` (TruStar.py lines 272-305), up to the point
the transport is invoked: either the guard of lines 288-289 raises, or the
request of lines 302-303 is issued. -/
def TruStar.submit_report_v12 (self : TruStar) (parse : String → Option PyDatetime)
    (localOff : Int) (nowWall : ℚ) (current_time : Int)
    (access_token report_body_txt report_name : String) (external_id : Option String)
    (began_time : PyInput) (enclave : Bool) (verify : Bool) : Except String HttpRequest :=
  let distribution_type := if enclave then "ENCLAVE" else "COMMUNITY"
  if distribution_type = "ENCLAVE" ∧ self.enclaveIds.length < 1 then
    Except.error "Must specify one or more enclave IDs to submit enclave reports into"
  else
    let tb := normalize_timestamp parse localOff nowWall current_time began_time
    Except.ok
      { method := "POST",
        url := self.base ++ "/report",
        params := [],
        headers := [("Authorization", "Bearer " ++ access_token),
                    ("content-Type", "application/json")],
        body := some (PyObj.dict
          [("incidentReport", PyObj.dict
             [("title", PyObj.str report_name),
              ("externalTrackingId", pyStrOpt external_id),
              ("timeBegan", PyObj.iso tb.wall tb.tz),
              ("reportBody", PyObj.str report_body_txt),
              ("distributionType", PyObj.str distribution_type)]),
           ("enclaveIds", PyObj.list (self.enclaveIds.map PyObj.str)),
           ("attributedToMe", PyObj.bool self.attributedToMe)]),
        timeout := some 60,
        verify := verify }

/-- `TruStar.update_report` (TruStar.py lines 148-176): always issues one
PUT request; lines 169-170 split a truthy `enclave_ids` string on commas
(the comprehension filter `i is not None` never removes a split element),
and a falsy value is placed in the payload unchanged.  `requests.put` is
called without a `timeout=` argument (line 175). -/
def TruStar.update_report (self : TruStar) (access_token report_id : String)
    (id_type title report_body time_discovered distribution : Option String)
    (attribution : Option Bool) (enclave_ids : Option String)
    (verify : Bool) : HttpRequest :=
  let enclave_ids_val : PyObj :=
    match enclave_ids with
    | some s =>
        if s ≠ "" then
          PyObj.list (((s.splitOn ",").filter (fun _ => true)).map PyObj.str)
        else PyObj.str s
    | Option.none => PyObj.none
  { method := "PUT",
    url := self.base ++ "/report/" ++ report_id,
    params := [("idType", id_type)],
    headers := [("Authorization", "Bearer " ++ access_token),
                ("content-Type", "application/json")],
    body := some (PyObj.dict
      [("incidentReport", PyObj.dict
         [("title", pyStrOpt title),
          ("reportBody", pyStrOpt report_body),
          ("timeDiscovered", pyStrOpt time_discovered),
          ("distributionType", pyStrOpt distribution)]),
       ("enclaveIds", enclave_ids_val),
       ("attributedToMe", pyBoolOpt attribution)]),
    timeout := Option.none,
    verify := verify }

/-- `TruStar.delete_report` (TruStar.py lines 178-191): one DELETE request,
issued without a `timeout=` argument (line 190). -/
def TruStar.delete_report (self : TruStar) (access_token report_id : String)
    (id_type : Option String) (verify : Bool) : HttpRequest :=
  { method := "DELETE",
    url := self.base ++ "/report/" ++ report_id,
    params := [("idType", id_type)],
    headers := [("Authorization", "Bearer " ++ access_token)],
    body := Option.none,
    timeout := Option.none,
    verify := verify }

/-- Number of transport invocations performed by an operation that either
fails before reaching the transport or issues exactly one request. -/
def transport_invocations : Except String HttpRequest → Nat
  | Except.error _ => 0
  | Except.ok _ => 1

/-- The `timeout=` argument of the request an operation issues, when it
issues one. -/
def req_timeout : Except String HttpRequest → Option (Option Nat)
  | Except.ok r => some r.timeout
  | Except.error _ => Option.none

/-- The value stored under the `enclaveIds` key of a request payload. -/
def bodyEnclaveIds (r : HttpRequest) : PyObj :=
  match r.body with
  | some (PyObj.dict fields) => pyGet fields "enclaveIds"
  | _ => PyObj.none

lemma submit_guard_not_taken (self : TruStar) (enclave : Bool)
    (h : enclave = false ∨ self.enclaveIds ≠ []) :
    ¬ ((if enclave then "ENCLAVE" else "COMMUNITY") = "ENCLAVE" ∧
        self.enclaveIds.length < 1) := by
  rcases h with h | h
  · subst h
    simp
  · intro hc
    exact h (List.length_eq_zero.mp (Nat.lt_one_iff.mp hc.2))

/-- Claim C9: a null wire payload maps to an absent model:
`RequestQuota.from_dict(None)` returns `None` rather than raising or
returning a record with all fields unset. -/
theorem C9_from_dict_none_is_none :
    RequestQuota.from_dict Option.none = Option.none := rfl

/-- Claim C7: for every `RequestQuota` value, including all-fields-absent
and all-fields-present, `from_dict (to_dict x)` equals `x` field for field,
and the wire dictionary uses camelCase key names, a naming distinct from
the snake_case attribute names of the in-memory record. -/
theorem C7_request_quota_round_trip (q : RequestQuota) :
    RequestQuota.from_dict (some q.to_dict) = some q ∧
    q.to_dict.map Prod.fst =
      ["guid", "maxRequests", "usedRequests", "timeWindow",
       "lastResetTime", "nextResetTime"] ∧
    q.to_dict.map Prod.fst ≠
      ["guid", "max_requests", "used_requests", "time_window",
       "last_reset_time", "next_reset_time"] := by
  cases q
  exact ⟨rfl, rfl, by simp [RequestQuota.to_dict]⟩

/-- Claim C1 counterexample: at status code 500 (outside the 2xx range)
both `get_report_details` and `submit_report` return the decoded response
body as a success value instead of raising a typed error. -/
theorem C1_counterexample :
    (299 < 500 ∨ 500 < 200) ∧
    get_report_details_handle
        { status_code := 500, content := PyObj.str "Internal Server Error" } =
      Except.ok (PyObj.str "Internal Server Error") ∧
    submit_report_handle
        { status_code := 500, content := PyObj.str "Internal Server Error" } =
      Except.ok (PyObj.str "Internal Server Error") :=
  ⟨Or.inl (by decide), rfl, rfl⟩

/-- Claim C1 amended: the client operations never inspect the HTTP status
code: for every response, success or not, `get_report_details` and
`submit_report` decode and return the response body, and the result is
always a success value, never a typed error. -/
theorem C1_amended_no_status_inspection (resp : HttpResponse) :
    get_report_details_handle resp = Except.ok resp.content ∧
    submit_report_handle resp = Except.ok resp.content ∧
    (get_report_details_handle resp).isOk = true ∧
    (submit_report_handle resp).isOk = true :=
  ⟨rfl, rfl, rfl, rfl⟩

/-- Claim C3: submitting with enclave mode enabled and an empty configured
enclave-id list fails with the configuration error before any HTTP request
is issued, for both `submit_report` and `submit_report_v12`: the result is
the raised error and the number of transport invocations is zero. -/
theorem C3_enclave_guard_fails_before_transport
    (self : TruStar) (parse : String → Option PyDatetime) (localOff : Int)
    (nowWall : ℚ) (current_time : Int) (tok body_txt name : String)
    (external_id : Option String) (began_time : PyInput) (verify : Bool)
    (h : self.enclaveIds = []) :
    self.submit_report parse localOff nowWall current_time
        tok body_txt name began_time true verify =
      Except.error "Must specify one or more enclave IDs to submit enclave reports into" ∧
    transport_invocations (self.submit_report parse localOff nowWall current_time
        tok body_txt name began_time true verify) = 0 ∧
    self.submit_report_v12 parse localOff nowWall current_time
        tok body_txt name external_id began_time true verify =
      Except.error "Must specify one or more enclave IDs to submit enclave reports into" ∧
    transport_invocations (self.submit_report_v12 parse localOff nowWall current_time
        tok body_txt name external_id began_time true verify) = 0 := by
  refine ⟨?_, ?_, ?_, ?_⟩ <;>
    simp [TruStar.submit_report, TruStar.submit_report_v12,
      transport_invocations, h]

/-- Claim C3 witness: a concrete client with no configured enclave ids. -/
theorem C3_witness :
    TruStar.submit_report
        { auth := "a", base := "b", apikey := "k", apisecret := "s",
          enclaveIds := [], attributedToMe := false }
        (fun _ => Option.none) 0 0 1600000000
        "tok" "body" "name" PyInput.other true true =
      Except.error "Must specify one or more enclave IDs to submit enclave reports into" ∧
    transport_invocations (TruStar.submit_report
        { auth := "a", base := "b", apikey := "k", apisecret := "s",
          enclaveIds := [], attributedToMe := false }
        (fun _ => Option.none) 0 0 1600000000
        "tok" "body" "name" PyInput.other true true) = 0 ∧
    TruStar.submit_report_v12
        { auth := "a", base := "b", apikey := "k", apisecret := "s",
          enclaveIds := [], attributedToMe := false }
        (fun _ => Option.none) 0 0 1600000000
        "tok" "body" "name" Option.none PyInput.other true true =
      Except.error "Must specify one or more enclave IDs to submit enclave reports into" ∧
    transport_invocations (TruStar.submit_report_v12
        { auth := "a", base := "b", apikey := "k", apisecret := "s",
          enclaveIds := [], attributedToMe := false }
        (fun _ => Option.none) 0 0 1600000000
        "tok" "body" "name" Option.none PyInput.other true true) = 0 :=
  C3_enclave_guard_fails_before_transport _ _ _ _ _ _ _ _ _ _ _ rfl

/-- Claim C8 counterexample: the write operations `update_report` and
`delete_report` issue their requests with no `timeout=` argument at all, so
not every write operation bounds its latency with a fixed request
timeout. -/
theorem C8_counterexample :
    (TruStar.update_report
        { auth := "a", base := "b", apikey := "k", apisecret := "s",
          enclaveIds := [], attributedToMe := false }
        "tok" "rid" Option.none Option.none Option.none Option.none
        Option.none Option.none Option.none true).timeout = Option.none ∧
    (TruStar.delete_report
        { auth := "a", base := "b", apikey := "k", apisecret := "s",
          enclaveIds := [], attributedToMe := false }
        "tok" "rid" Option.none true).timeout = Option.none :=
  ⟨rfl, rfl⟩

/-- Claim C8 amended: only report submission applies a fixed request
timeout: `submit_report` and `submit_report_v12` issue their request with
`timeout=60`, while `update_report` and `delete_report` issue theirs with
no timeout argument. -/
theorem C8_amended_timeout_only_on_submission
    (self : TruStar) (parse : String → Option PyDatetime) (localOff : Int)
    (nowWall : ℚ) (current_time : Int) (tok rid body_txt name : String)
    (id_type title report_body time_discovered distribution : Option String)
    (attribution : Option Bool) (enclave_ids external_id : Option String)
    (began_time : PyInput) (enclave : Bool) (verify : Bool)
    (h : enclave = false ∨ self.enclaveIds ≠ []) :
    (self.update_report tok rid id_type title report_body time_discovered
        distribution attribution enclave_ids verify).timeout = Option.none ∧
    (self.delete_report tok rid id_type verify).timeout = Option.none ∧
    req_timeout (self.submit_report parse localOff nowWall current_time
        tok body_txt name began_time enclave verify) = some (some 60) ∧
    req_timeout (self.submit_report_v12 parse localOff nowWall current_time
        tok body_txt name external_id began_time enclave verify) = some (some 60) := by
  refine ⟨rfl, rfl, ?_, ?_⟩ <;>
    simp only [TruStar.submit_report, TruStar.submit_report_v12,
      if_neg (submit_guard_not_taken self enclave h), req_timeout]

/-- Claim C8 amended witness: a concrete community-mode submission carries
`timeout=60`; a concrete update and delete carry no timeout. -/
theorem C8_amended_witness :
    (TruStar.update_report
        { auth := "a", base := "b", apikey := "k", apisecret := "s",
          enclaveIds := [], attributedToMe := false }
        "tok" "rid" Option.none Option.none Option.none Option.none
        Option.none Option.none Option.none true).timeout = Option.none ∧
    (TruStar.delete_report
        { auth := "a", base := "b", apikey := "k", apisecret := "s",
          enclaveIds := [], attributedToMe := false }
        "tok" "rid" Option.none true).timeout = Option.none ∧
    req_timeout (TruStar.submit_report
        { auth := "a", base := "b", apikey := "k", apisecret := "s",
          enclaveIds := [], attributedToMe := false }
        (fun _ => Option.none) 0 0 1600000000
        "tok" "body" "name" PyInput.other false true) = some (some 60) ∧
    req_timeout (TruStar.submit_report_v12
        { auth := "a", base := "b", apikey := "k", apisecret := "s",
          enclaveIds := [], attributedToMe := false }
        (fun _ => Option.none) 0 0 1600000000
        "tok" "body" "name" Option.none PyInput.other false true) = some (some 60) :=
  C8_amended_timeout_only_on_submission _ _ _ _ _ _ _ _ _
    Option.none Option.none Option.none Option.none Option.none
    Option.none Option.none Option.none PyInput.other false true
    (Or.inl rfl)

/-- Claim C10: `update_report` treats its `enclave_ids` parameter as a
comma-separated string: a truthy value is split on commas into a list of
strings placed under the `enclaveIds` payload key, while a falsy value
(`None` or the empty string) is placed in the payload unchanged. -/
theorem C10_update_report_splits_enclave_ids
    (self : TruStar) (tok rid : String)
    (id_type title report_body time_discovered distribution : Option String)
    (attribution : Option Bool) (verify : Bool) :
    (∀ s : String, s ≠ "" →
      bodyEnclaveIds (self.update_report tok rid id_type title report_body
          time_discovered distribution attribution (some s) verify) =
        PyObj.list ((s.splitOn ",").map PyObj.str)) ∧
    bodyEnclaveIds (self.update_report tok rid id_type title report_body
        time_discovered distribution attribution Option.none verify) = PyObj.none ∧
    bodyEnclaveIds (self.update_report tok rid id_type title report_body
        time_discovered distribution attribution (some "") verify) = PyObj.str "" := by
  refine ⟨fun s hs => ?_, rfl, rfl⟩
  simp [TruStar.update_report, bodyEnclaveIds, pyGet, hs]

/-- Claim C10 witness: the string `"e1,e2"` is split into the two-element
list, `None` and the empty string pass through unchanged. -/
theorem C10_witness :
    bodyEnclaveIds (TruStar.update_report
        { auth := "a", base := "b", apikey := "k", apisecret := "s",
          enclaveIds := [], attributedToMe := false }
        "tok" "rid" Option.none Option.none Option.none Option.none
        Option.none Option.none (some "e1,e2") true) =
      PyObj.list (("e1,e2".splitOn ",").map PyObj.str) :=
  (C10_update_report_splits_enclave_ids _ _ _ _ _ _ _ _ _ true).1
    "e1,e2" (by decide)

lemma fromtimestamp_tz_none (off : Int) (t : ℚ) (d : PyDatetime)
    (h : fromtimestamp off t = some d) : d.tz = Option.none := by
  unfold fromtimestamp at h
  split at h
  · cases h
    rfl
  · cases h

lemma normalize_int_in_range (parse : String → Option PyDatetime)
    (localOff : Int) (nowWall : ℚ) (c n : Int)
    (hlo : (minPyEpoch : ℚ) ≤ pyIntSeconds c n)
    (hhi : pyIntSeconds c n ≤ (maxPyEpoch : ℚ)) :
    normalize_timestamp parse localOff nowWall c (PyInput.int n) =
      { wall := pyIntSeconds c n, tz := some 0 } := by
  have h1 : fromtimestamp localOff (pyIntSeconds c n) =
      some { wall := pyIntSeconds c n + (localOff : ℚ), tz := Option.none } := by
    unfold fromtimestamp
    split
    · rfl
    · rename_i hcon
      exact absurd ⟨hlo, hhi⟩ hcon
  unfold normalize_timestamp
  dsimp only
  rw [h1]
  simp only [Option.getD_some, localize, astimezone_utc]
  simp only [PyDatetime.mk.injEq, and_true]
  ring

lemma normalize_int_out_of_range (parse : String → Option PyDatetime)
    (localOff : Int) (nowWall : ℚ) (c n : Int)
    (h : fromtimestamp localOff (pyIntSeconds c n) = Option.none) :
    normalize_timestamp parse localOff nowWall c (PyInput.int n) =
      { wall := nowWall - (localOff : ℚ), tz := some 0 } := by
  unfold normalize_timestamp
  dsimp only
  rw [h]
  simp only [Option.getD_none, localize, astimezone_utc]

lemma pyIntSeconds_ms (c n : Int) (hms : 9999999999 < n) (hle : n ≤ c * 1000) :
    pyIntSeconds c n = (n : ℚ) / 1000 := by
  have hle2 : (n : ℚ) / 1000 ≤ (c : ℚ) := by
    rw [div_le_iff₀ (by norm_num : (0:ℚ) < 1000)]
    exact_mod_cast hle
  unfold pyIntSeconds
  dsimp only
  split
  · split
    · rename_i hlt
      exact absurd hlt (not_lt.mpr hle2)
    · rfl
  · rename_i hA
    exact absurd hms hA

lemma pyIntSeconds_sec (c n : Int) (hsec : n ≤ 9999999999) (hle : n ≤ c) :
    pyIntSeconds c n = (n : ℚ) := by
  have hle2 : (n : ℚ) ≤ (c : ℚ) := Int.cast_le.mpr hle
  unfold pyIntSeconds
  dsimp only
  split
  · rename_i hA
    exact absurd hA (not_lt.mpr hsec)
  · split
    · rename_i hlt
      exact absurd hlt (not_lt.mpr hle2)
    · rfl

lemma pyIntSeconds_future (c n : Int)
    (hfut : (9999999999 < n ∧ c * 1000 < n) ∨ (n ≤ 9999999999 ∧ c < n)) :
    pyIntSeconds c n = (c : ℚ) := by
  unfold pyIntSeconds
  dsimp only
  split
  · rename_i hA
    split
    · rfl
    · rename_i hnlt
      exfalso
      apply hnlt
      rcases hfut with ⟨_, hf⟩ | ⟨hs, _⟩
      · rw [lt_div_iff₀ (by norm_num : (0:ℚ) < 1000)]
        exact_mod_cast hf
      · exact absurd hA (not_lt.mpr hs)
  · rename_i hA
    split
    · rfl
    · rename_i hnlt
      exfalso
      apply hnlt
      rcases hfut with ⟨hms, _⟩ | ⟨_, hf⟩
      · exact absurd hms hA
      · exact_mod_cast hf

/-- Claim C5: an integer input strictly greater than 9999999999 is treated
as milliseconds since the epoch and divided by 1000, while an integer at or
below that threshold is used unscaled as seconds since the epoch; shown on
the normalized output for values that are in the representable range and
not in the future. -/
theorem C5_millis_threshold (parse : String → Option PyDatetime)
    (localOff : Int) (nowWall : ℚ) (c n : Int) :
    (9999999999 < n → minPyEpoch * 1000 ≤ n → n ≤ c * 1000 → c ≤ maxPyEpoch →
      normalize_timestamp parse localOff nowWall c (PyInput.int n) =
        { wall := (n : ℚ) / 1000, tz := some 0 }) ∧
    (n ≤ 9999999999 → minPyEpoch ≤ n → n ≤ c → c ≤ maxPyEpoch →
      normalize_timestamp parse localOff nowWall c (PyInput.int n) =
        { wall := (n : ℚ), tz := some 0 }) := by
  constructor
  · intro hms hmin hc hcmax
    have ht : pyIntSeconds c n = (n : ℚ) / 1000 := pyIntSeconds_ms c n hms hc
    have hlo : (minPyEpoch : ℚ) ≤ pyIntSeconds c n := by
      rw [ht, le_div_iff₀ (by norm_num : (0:ℚ) < 1000)]
      exact_mod_cast hmin
    have hhi : pyIntSeconds c n ≤ (maxPyEpoch : ℚ) := by
      rw [ht, div_le_iff₀ (by norm_num : (0:ℚ) < 1000)]
      exact_mod_cast le_trans hc
        (mul_le_mul_of_nonneg_right hcmax (by norm_num))
    rw [normalize_int_in_range parse localOff nowWall c n hlo hhi, ht]
  · intro hsec hmin hc hcmax
    have ht : pyIntSeconds c n = (n : ℚ) := pyIntSeconds_sec c n hsec hc
    have hlo : (minPyEpoch : ℚ) ≤ pyIntSeconds c n := by
      rw [ht]
      exact_mod_cast hmin
    have hhi : pyIntSeconds c n ≤ (maxPyEpoch : ℚ) := by
      rw [ht]
      exact_mod_cast le_trans hc hcmax
    rw [normalize_int_in_range parse localOff nowWall c n hlo hhi, ht]

/-- Claim C5 witness: with wall clock at 1600000000, the input 20000000000
is divided by 1000 while the input 5 is used unscaled. -/
theorem C5_witness :
    normalize_timestamp (fun _ => Option.none) 0 0 1600000000
        (PyInput.int 20000000000) =
      { wall := ((20000000000 : Int) : ℚ) / 1000, tz := some 0 } ∧
    normalize_timestamp (fun _ => Option.none) 0 0 1600000000 (PyInput.int 5) =
      { wall := ((5 : Int) : ℚ), tz := some 0 } :=
  ⟨(C5_millis_threshold (fun _ => Option.none) 0 0 1600000000 20000000000).1
      (by decide) (by decide) (by decide) (by decide),
   (C5_millis_threshold (fun _ => Option.none) 0 0 1600000000 5).2
      (by decide) (by decide) (by decide) (by decide)⟩

/-- Claim C6: an integer input that, after seconds/milliseconds
disambiguation, lies strictly in the future relative to `current_time` is
clamped to `current_time` rather than rejected: the normalized output is
the UTC rendering of the current time. -/
theorem C6_future_clamped_to_now (parse : String → Option PyDatetime)
    (localOff : Int) (nowWall : ℚ) (c n : Int)
    (hfut : (9999999999 < n ∧ c * 1000 < n) ∨ (n ≤ 9999999999 ∧ c < n))
    (hlo : minPyEpoch ≤ c) (hhi : c ≤ maxPyEpoch) :
    normalize_timestamp parse localOff nowWall c (PyInput.int n) =
      { wall := (c : ℚ), tz := some 0 } := by
  have ht : pyIntSeconds c n = (c : ℚ) := pyIntSeconds_future c n hfut
  have hlo2 : (minPyEpoch : ℚ) ≤ pyIntSeconds c n := by
    rw [ht]
    exact_mod_cast hlo
  have hhi2 : pyIntSeconds c n ≤ (maxPyEpoch : ℚ) := by
    rw [ht]
    exact_mod_cast hhi
  rw [normalize_int_in_range parse localOff nowWall c n hlo2 hhi2, ht]

/-- Claim C6 witness: with wall clock at 1600000000, the future inputs
2000000000 (seconds) and 1700000000000 (milliseconds) are both clamped to
the current time. -/
theorem C6_witness :
    normalize_timestamp (fun _ => Option.none) 0 0 1600000000
        (PyInput.int 2000000000) =
      { wall := ((1600000000 : Int) : ℚ), tz := some 0 } ∧
    normalize_timestamp (fun _ => Option.none) 0 0 1600000000
        (PyInput.int 1700000000000) =
      { wall := ((1600000000 : Int) : ℚ), tz := some 0 } :=
  ⟨C6_future_clamped_to_now (fun _ => Option.none) 0 0 1600000000 2000000000
      (Or.inr ⟨by decide, by decide⟩) (by decide) (by decide),
   C6_future_clamped_to_now (fun _ => Option.none) 0 0 1600000000 1700000000000
      (Or.inl ⟨by decide, by decide⟩) (by decide) (by decide)⟩

/-- Claim C4: `normalize_timestamp` never raises for a failed parse: a
string that fails to parse and an integer below the representable range
both fall back to the current time and still yield a formatted UTC
timestamp. -/
theorem C4_parse_failure_falls_back_to_now (parse : String → Option PyDatetime)
    (localOff : Int) (nowWall : ℚ) (c n : Int) (s : String) :
    (parse s = Option.none →
      normalize_timestamp parse localOff nowWall c (PyInput.str s) =
        { wall := nowWall - (localOff : ℚ), tz := some 0 }) ∧
    (n ≤ 9999999999 → n < minPyEpoch → n ≤ c →
      normalize_timestamp parse localOff nowWall c (PyInput.int n) =
        { wall := nowWall - (localOff : ℚ), tz := some 0 }) := by
  constructor
  · intro h
    unfold normalize_timestamp
    dsimp only
    rw [h]
    simp [localize, astimezone_utc]
  · intro hsec hmin hc
    have ht : pyIntSeconds c n = (n : ℚ) := pyIntSeconds_sec c n hsec hc
    have hout : fromtimestamp localOff (pyIntSeconds c n) = Option.none := by
      unfold fromtimestamp
      split
      · rename_i hcon
        rw [ht] at hcon
        exact absurd hcon.1 (not_le.mpr (by exact_mod_cast hmin))
      · rfl
    exact normalize_int_out_of_range parse localOff nowWall c n hout

/-- Claim C4 witness: a garbage string and a far-out-of-range negative
integer both produce the fallback current time, converted to UTC. -/
theorem C4_witness :
    normalize_timestamp (fun _ => Option.none) 3600 7 0
        (PyInput.str "not a date") =
      { wall := 7 - ((3600 : Int) : ℚ), tz := some 0 } ∧
    normalize_timestamp (fun _ => Option.none) 3600 7 0
        (PyInput.int (-100000000000000)) =
      { wall := 7 - ((3600 : Int) : ℚ), tz := some 0 } :=
  ⟨(C4_parse_failure_falls_back_to_now (fun _ => Option.none) 3600 7 0 0
      "not a date").1 rfl,
   (C4_parse_failure_falls_back_to_now (fun _ => Option.none) 3600 7 0
      (-100000000000000) "not a date").2 (by decide) (by decide) (by decide)⟩

/-- Claim C2 counterexample: a timezone-aware datetime in a non-UTC zone
(offset +18000 seconds, that is +05:00) is returned with its original
offset: `normalize_timestamp` does not convert it to UTC before
formatting. -/
theorem C2_counterexample :
    normalize_timestamp (fun _ => Option.none) 0 0 1600000000
        (PyInput.dt { wall := 0, tz := some 18000 }) =
      { wall := 0, tz := some 18000 } ∧
    ((some (18000 : Int) == some (0 : Int)) = false) :=
  ⟨rfl, rfl⟩

/-- Claim C2 amended: the output carries an explicit UTC offset whenever
the resolved value is timezone-naive (every integer input, every failed or
naive parse, every naive datetime, and the fallback current time); a
timezone-aware input is returned unchanged, keeping its original, possibly
non-UTC, offset. -/
theorem C2_amended_utc_only_when_naive (parse : String → Option PyDatetime)
    (localOff : Int) (nowWall : ℚ) (c : Int) (inp : PyInput) :
    (normalize_timestamp parse localOff nowWall c inp).tz = some 0 ∨
    (∃ d, inp = PyInput.dt d ∧ d.tz ≠ Option.none ∧
      normalize_timestamp parse localOff nowWall c inp = d) ∨
    (∃ s d, inp = PyInput.str s ∧ parse s = some d ∧ d.tz ≠ Option.none ∧
      normalize_timestamp parse localOff nowWall c inp = d) := by
  cases inp with
  | int n =>
      left
      unfold normalize_timestamp
      dsimp only
      cases hf : fromtimestamp localOff (pyIntSeconds c n) with
      | none =>
          simp [localize, astimezone_utc]
      | some d =>
          have hdz := fromtimestamp_tz_none localOff (pyIntSeconds c n) d hf
          simp [hdz, localize, astimezone_utc]
  | str s =>
      cases hp : parse s with
      | none =>
          left
          unfold normalize_timestamp
          dsimp only
          rw [hp]
          simp [localize, astimezone_utc]
      | some d =>
          cases hd : d.tz with
          | none =>
              left
              unfold normalize_timestamp
              dsimp only
              rw [hp]
              simp [hd, localize, astimezone_utc]
          | some o =>
              right
              right
              refine ⟨s, d, rfl, hp, by simp [hd], ?_⟩
              unfold normalize_timestamp
              dsimp only
              rw [hp]
              simp [hd]
  | dt d =>
      cases hd : d.tz with
      | none =>
          left
          unfold normalize_timestamp
          dsimp only
          simp [hd, localize, astimezone_utc]
      | some o =>
          right
          left
          refine ⟨d, rfl, by simp [hd], ?_⟩
          unfold normalize_timestamp
          dsimp only
          simp [hd]
  | other =>
      left
      unfold normalize_timestamp
      dsimp only
      simp [localize, astimezone_utc]
